import Mathlib

/-!
Verification development for the Dattavani ASR QA harness.

Shallow embedding of the result model, execution engine, rating policy,
aggregation and trend logic of the repository:
  qa-agent/qa_agent.py                       (check suite, RunReport)
  qa-agent/qa_dashboard.py                   (trend analysis)
  qa-agent/scripts/performance_benchmark.py  (rating policy, benchmark report)
  qa-agent/scripts/security_check.py         (security checker)
  qa-agent/scripts/aggregate_qa_results.py   (multi-run aggregation)

Conventions of the embedding:
* Python floats are modelled as rationals (the code only ever adds,
  divides and compares them); machine timestamps, wall-clock durations
  and log output are irrelevant to every property treated here and are
  either carried opaquely or set to 0.
* Subprocess/file-system observations (exit codes, captured streams,
  file contents, memory samples) are supplied by explicit environment
  records; an `Except String` value models a Python call that may raise.
* Statuses are the literal strings the source uses.
-/

/-! ### Generic string helpers (Python `in`, `str.lower`, `str.count`) -/

/-- Membership test of `nd` as a contiguous run inside a character list;
models Python `needle in hay` for strings. -/
def strContainsAux (nd : List Char) : List Char → Bool
  | [] => nd.isEmpty
  | c :: t => nd.isPrefixOf (c :: t) || strContainsAux nd t

/-- Python `needle in hay` (substring test). -/
def strContains (hay needle : String) : Bool :=
  strContainsAux needle.data hay.data

/-- Python `s.lower()`. -/
def strToLower (s : String) : String := ⟨s.data.map Char.toLower⟩

/-- Non-overlapping occurrence count of `nd` in a character list;
models Python `hay.count(needle)` for non-empty `needle`. -/
def countSubstrAux (nd : List Char) : List Char → ℕ
  | [] => 0
  | c :: t =>
    if nd.isPrefixOf (c :: t) then 1 + countSubstrAux nd (t.drop (nd.length - 1))
    else countSubstrAux nd t
termination_by l => l.length
decreasing_by
  · simp only [List.length_drop, List.length_cons]
    omega
  · simp only [List.length_cons]
    omega

/-- Python `hay.count(needle)`. -/
def countSubstr (hay needle : String) : ℕ :=
  countSubstrAux needle.data hay.data

/-- Maximum of a rational list, as Python `max(l)` on a non-empty list
(0 on the empty list, which the callers below never reach). -/
def listMaxQ : List ℚ → ℚ
  | [] => 0
  | x :: xs => xs.foldl max x

/-! ### qa_agent.py — TestResult and the individual checks

`TestResult` keeps the fields the claims touch (name, category, status,
message); `duration`, `details` and `timestamp` are measurement payload
recorded verbatim by `add_result` and are abstracted away. -/

structure TestResult where
  name : String
  category : String
  status : String
  message : String
deriving Repr, DecidableEq

/-- Observation for `test_binary_exists`: does the binary exist, is it
executable. -/
structure BinaryObs where
  binaryExists : Bool
  isExecutable : Bool
deriving Repr, DecidableEq

/-- One subprocess observation: exit code and captured streams. -/
structure CmdObs where
  exitCode : Int
  stdout : String
  stderr : String
deriving Repr, DecidableEq

/-- qa_agent.py `test_binary_exists`. -/
def test_binary_exists (o : BinaryObs) : TestResult :=
  if ¬ o.binaryExists then
    ⟨"Binary Existence", "build", "FAIL", "Binary not found"⟩
  else if ¬ o.isExecutable then
    ⟨"Binary Executable", "build", "FAIL", "Binary exists but is not executable"⟩
  else
    ⟨"Binary Existence", "build", "PASS", "Binary found and executable"⟩

def helpExpectedContent : List String :=
  ["High-performance Automatic Speech Recognition", "Commands:", "stream-process",
   "stream-batch", "supported-formats"]

/-- qa_agent.py `test_help_command`. -/
def test_help_command (o : CmdObs) : TestResult :=
  if o.exitCode ≠ 0 then
    ⟨"Help Command", "cli", "FAIL", "Help command failed"⟩
  else
    let missing := helpExpectedContent.filter (fun c => ¬ strContains o.stdout c)
    if missing ≠ [] then
      ⟨"Help Command Content", "cli", "FAIL", "Missing expected content"⟩
    else
      ⟨"Help Command", "cli", "PASS",
        "Help command executed successfully with expected content"⟩

/-- qa_agent.py `test_version_command`. -/
def test_version_command (o : CmdObs) : TestResult :=
  if o.exitCode ≠ 0 then
    ⟨"Version Command", "cli", "FAIL", "Version command failed"⟩
  else if ¬ strContains (strToLower o.stdout) "dattavani-asr" then
    ⟨"Version Command Content", "cli", "FAIL",
      "Version output does not contain application name"⟩
  else
    ⟨"Version Command", "cli", "PASS", "Version command executed successfully"⟩

def expectedFormats : List String := ["mp4", "mp3", "wav", "avi", "English", "Spanish"]

/-- qa_agent.py `test_supported_formats`: at least 4 of the expected
format markers must appear in stderr. -/
def test_supported_formats (o : CmdObs) : TestResult :=
  if o.exitCode ≠ 0 then
    ⟨"Supported Formats Command", "cli", "FAIL", "Supported formats command failed"⟩
  else
    let found := expectedFormats.filter (fun fmt => strContains o.stderr fmt)
    if found.length < 4 then
      ⟨"Supported Formats Content", "cli", "FAIL", "Expected format information not found"⟩
    else
      ⟨"Supported Formats Command", "cli", "PASS",
        "Supported formats command executed successfully"⟩

/-- Observation for `test_generate_config`: command outcome plus the
generated file's existence and content. -/
structure ConfigObs where
  exitCode : Int
  stdout : String
  stderr : String
  configCreated : Bool
  configContent : String
deriving Repr, DecidableEq

def expectedSections : List String := ["[google]", "[whisper]", "[processing]", "[logging]"]

/-- qa_agent.py `test_generate_config`. -/
def test_generate_config (o : ConfigObs) : TestResult :=
  if o.exitCode ≠ 0 then
    ⟨"Generate Config Command", "cli", "FAIL", "Generate config command failed"⟩
  else if ¬ o.configCreated then
    ⟨"Generate Config File Creation", "cli", "FAIL", "Config file was not created"⟩
  else
    let missing := expectedSections.filter (fun s => ¬ strContains o.configContent s)
    if missing ≠ [] then
      ⟨"Generate Config Content", "cli", "FAIL", "Missing config sections"⟩
    else
      ⟨"Generate Config Command", "cli", "PASS",
        "Config file generated successfully with expected sections"⟩

def errorIndicators : List String := ["error", "invalid", "unknown", "help"]

/-- qa_agent.py `test_invalid_command`. -/
def test_invalid_command (o : CmdObs) : TestResult :=
  if o.exitCode = 0 then
    ⟨"Invalid Command Handling", "cli", "FAIL",
      "Invalid command should return non-zero exit code"⟩
  else
    let hasErrorInfo := errorIndicators.any (fun i =>
      strContains (strToLower o.stderr) i || strContains (strToLower o.stdout) i)
    if ¬ hasErrorInfo then
      ⟨"Invalid Command Error Message", "cli", "FAIL",
        "Invalid command should provide helpful error message"⟩
    else
      ⟨"Invalid Command Handling", "cli", "PASS",
        "Invalid command properly rejected with helpful error message"⟩

/-- qa_agent.py `test_performance_startup`: five `--version` runs are
observed as (exit code, elapsed seconds); only exit-code-0 runs count. -/
def test_performance_startup (runs : List (Int × ℚ)) : TestResult :=
  let startupTimes := runs.filterMap (fun p => if p.1 = 0 then some p.2 else none)
  if startupTimes = [] then
    ⟨"Startup Performance", "performance", "FAIL",
      "Could not measure startup time - all runs failed"⟩
  else
    let avg := startupTimes.sum / startupTimes.length
    if avg < 1 then
      ⟨"Startup Performance", "performance", "PASS", "Excellent startup performance"⟩
    else if avg < 3 then
      ⟨"Startup Performance", "performance", "PASS", "Good startup performance"⟩
    else
      ⟨"Startup Performance", "performance", "FAIL", "Slow startup performance"⟩

/-- Observation for the suite's memory check: whether psutil imports,
and the resident-memory samples (MB) collected while polling. -/
structure MemoryObs where
  psutilAvailable : Bool
  samples : List ℚ
deriving Repr, DecidableEq

/-- qa_agent.py `test_memory_usage`: peak below 100 MB or 500 MB passes,
above fails; no samples or no psutil is a SKIP. -/
def test_memory_usage (o : MemoryObs) : TestResult :=
  if ¬ o.psutilAvailable then
    ⟨"Memory Usage", "performance", "SKIP", "psutil not available for memory monitoring"⟩
  else if o.samples = [] then
    ⟨"Memory Usage", "performance", "SKIP", "Could not collect memory samples"⟩
  else
    let maxMemory := listMaxQ o.samples
    if maxMemory < 100 then
      ⟨"Memory Usage", "performance", "PASS", "Excellent memory usage"⟩
    else if maxMemory < 500 then
      ⟨"Memory Usage", "performance", "PASS", "Good memory usage"⟩
    else
      ⟨"Memory Usage", "performance", "FAIL", "High memory usage"⟩

/-- qa_agent.py `test_code_quality`: clippy's stderr is scanned for
`warning:` and `error:` markers when the command exits non-zero. -/
def test_code_quality (o : CmdObs) : TestResult :=
  if o.exitCode ≠ 0 then
    let errorCount := countSubstr o.stderr "error:"
    if errorCount > 0 then
      ⟨"Code Quality (Clippy)", "quality", "FAIL", "Clippy found errors"⟩
    else
      ⟨"Code Quality (Clippy)", "quality", "PASS", "Clippy found warnings but no errors"⟩
  else
    ⟨"Code Quality (Clippy)", "quality", "PASS", "Clippy found no issues"⟩

/-- Observation for `test_build_reproducibility`. -/
structure RebuildObs where
  binaryExists : Bool
  originalHash : String
  rebuildExitCode : Int
  newHash : String
deriving Repr, DecidableEq

/-- qa_agent.py `test_build_reproducibility`. -/
def test_build_reproducibility (o : RebuildObs) : TestResult :=
  if ¬ o.binaryExists then
    ⟨"Build Reproducibility", "build", "SKIP", "Binary not found for hash comparison"⟩
  else if o.rebuildExitCode ≠ 0 then
    ⟨"Build Reproducibility", "build", "FAIL", "Rebuild failed"⟩
  else if o.originalHash = o.newHash then
    ⟨"Build Reproducibility", "build", "PASS",
      "Build is reproducible - identical binary produced"⟩
  else
    ⟨"Build Reproducibility", "build", "FAIL",
      "Build is not reproducible - different binary produced"⟩

/-! ### qa_agent.py — run_all_tests -/

/-- Per-check environment for one suite run: each field is the
observation the corresponding check would make, or `Except.error msg`
when the check raises (the `try/except` in `run_all_tests`). -/
structure SuiteEnv where
  binary : Except String BinaryObs
  buildRepro : Except String RebuildObs
  helpCmd : Except String CmdObs
  versionCmd : Except String CmdObs
  formatsCmd : Except String CmdObs
  generateConfig : Except String ConfigObs
  invalidCmd : Except String CmdObs
  startup : Except String (List (Int × ℚ))
  memory : Except String MemoryObs
  clippy : Except String CmdObs

/-- The `try/except` wrapper of `run_all_tests`: a raising check is
recorded as an ERROR result named after the Python function. -/
def runCheck (pyName category : String) (f : α → TestResult) :
    Except String α → TestResult
  | .error e => ⟨pyName, category, "ERROR", "Test execution error: " ++ e⟩
  | .ok o => f o

/-- The check registry of `run_all_tests`: category tag to the ordered
results of that category's checks. -/
def suiteChecks (env : SuiteEnv) : List (String × List TestResult) :=
  [("build",
    [runCheck "test_binary_exists" "build" test_binary_exists env.binary,
     runCheck "test_build_reproducibility" "build" test_build_reproducibility env.buildRepro]),
   ("cli",
    [runCheck "test_help_command" "cli" test_help_command env.helpCmd,
     runCheck "test_version_command" "cli" test_version_command env.versionCmd,
     runCheck "test_supported_formats" "cli" test_supported_formats env.formatsCmd,
     runCheck "test_generate_config" "cli" test_generate_config env.generateConfig,
     runCheck "test_invalid_command" "cli" test_invalid_command env.invalidCmd]),
   ("performance",
    [runCheck "test_performance_startup" "performance" test_performance_startup env.startup,
     runCheck "test_memory_usage" "performance" test_memory_usage env.memory]),
   ("quality",
    [runCheck "test_code_quality" "quality" test_code_quality env.clippy])]

/-- The RunReport assembled at the end of `run_all_tests` (counter and
summary fields; timestamp/duration payload abstracted). -/
structure QAReport where
  total_tests : ℕ
  passed : ℕ
  failed : ℕ
  skipped : ℕ
  errors : ℕ
  pass_rate : ℚ
  overall_status : String
  results : List TestResult

/-- Report assembly from the accumulated result list, verbatim from the
tail of `run_all_tests`. -/
def mkQAReport (results : List TestResult) : QAReport :=
  let passed := (results.filter (fun r => r.status == "PASS")).length
  let failed := (results.filter (fun r => r.status == "FAIL")).length
  let skipped := (results.filter (fun r => r.status == "SKIP")).length
  let errors := (results.filter (fun r => r.status == "ERROR")).length
  { total_tests := results.length
    passed := passed
    failed := failed
    skipped := skipped
    errors := errors
    pass_rate := if results = [] then 0 else (passed : ℚ) / results.length
    overall_status := if failed = 0 ∧ errors = 0 then "PASS" else "FAIL"
    results := results }

/-- qa_agent.py `run_all_tests`: run the (optionally filtered)
categories in registration order and assemble the report. -/
def run_all_tests (env : SuiteEnv) (categories : Option (List String)) : QAReport :=
  let cats := match categories with
    | none => suiteChecks env
    | some cs => (suiteChecks env).filter (fun p => cs.contains p.1)
  mkQAReport (cats.flatMap (fun p => p.2))

/-! ### scripts/security_check.py — the structurally identical security checker

Each check returns a record whose `status` field is the literal string
the source uses. The regex scan of `check_secrets` and the directory
walks are abstracted: the environment supplies the hits/lines the scan
would have produced; the status logic on top of them is verbatim. -/

structure SecCheckResult where
  status : String
  message : String
deriving Repr, DecidableEq

/-- Observation for `check_cargo_audit`: exit code of `cargo audit`,
whether its stdout parsed as JSON, and the vulnerability list length. -/
structure AuditObs where
  exitCode : Int
  parseOk : Bool
  vulnerabilities : ℕ
deriving Repr, DecidableEq

/-- security_check.py `check_cargo_audit`. -/
def check_cargo_audit (o : AuditObs) : SecCheckResult :=
  if o.exitCode = 0 then
    if o.parseOk then
      if o.vulnerabilities = 0 then ⟨"PASS", "Found 0 known vulnerabilities"⟩
      else ⟨"FAIL", "Found known vulnerabilities"⟩
    else ⟨"ERROR", "Could not parse cargo audit output"⟩
  else ⟨"ERROR", "cargo audit failed"⟩

/-- Observation for `check_dependencies`: whether Cargo.toml exists and
the outcome of reading it (error = the read raised). -/
structure DepsObs where
  cargoTomlExists : Bool
  readResult : Except String String
deriving Repr

/-- security_check.py `check_dependencies`: substring heuristics over
Cargo.toml; any issue yields WARN, not FAIL. -/
def check_dependencies (o : DepsObs) : SecCheckResult :=
  if ¬ o.cargoTomlExists then ⟨"ERROR", "Cargo.toml not found"⟩
  else
    match o.readResult with
    | .error e => ⟨"ERROR", "Could not analyze dependencies: " ++ e⟩
    | .ok content =>
      let issues :=
        (if strContains content "git =" then
          ["Git dependencies found (potential security risk)"] else []) ++
        (if strContains content "path =" ∧ strContains content ".." then
          ["External path dependencies found"] else []) ++
        (if strContains content "\"*\"" then
          ["Wildcard version dependencies found"] else [])
      if issues.length = 0 then ⟨"PASS", "Found 0 dependency issues"⟩
      else ⟨"WARN", "Found dependency issues"⟩

/-- security_check.py `check_secrets`: the environment supplies the
matches the regex scan over the Rust sources found. -/
def check_secrets (secretsFound : List String) : SecCheckResult :=
  if secretsFound.length = 0 then ⟨"PASS", "Found 0 potential secrets"⟩
  else ⟨"FAIL", "Found potential secrets"⟩

/-- security_check.py `check_unsafe_code` (renamed `check_flagged_code`
here because the Rust keyword it scans for is unavailable as a Lean
identifier): scans every source line for that marker together with an
opening brace; hits yield WARN. The environment supplies the lines of
all `.rs` files. -/
def check_flagged_code (rustLines : List String) : SecCheckResult :=
  let blocks := rustLines.filter (fun l =>
    strContains l "unsafe" && strContains l "\x7b")
  if blocks.length = 0 then ⟨"PASS", "Found 0 unsafe code blocks"⟩
  else ⟨"WARN", "Found unsafe code blocks"⟩

/-- Observation for `check_file_permissions`: platform flag and the
(file, last-three-octal-digits) mode strings of every file walked. -/
structure PermObs where
  isWindows : Bool
  fileModes : List (String × String)
deriving Repr, DecidableEq

/-- security_check.py `check_file_permissions`: world-writable files
(mode ending in 6 or 7) yield WARN; Windows is a SKIP. -/
def check_file_permissions (o : PermObs) : SecCheckResult :=
  if o.isWindows then ⟨"SKIP", "File permission check skipped on Windows"⟩
  else
    let suspicious := o.fileModes.filter (fun p =>
      p.2.data.getLast? = some '6' ∨ p.2.data.getLast? = some '7')
    if suspicious.length = 0 then ⟨"PASS", "Found 0 files with suspicious permissions"⟩
    else ⟨"WARN", "Found files with suspicious permissions"⟩

/-- Environment for one `run_all_checks` of the security checker. -/
structure SecurityEnv where
  audit : AuditObs
  deps : DepsObs
  secretsFound : List String
  rustLines : List String
  perms : PermObs
deriving Repr

/-- The five check results of security_check.py `run_all_checks`, in
source order. -/
def securityCheckResults (env : SecurityEnv) : List SecCheckResult :=
  [check_cargo_audit env.audit,
   check_dependencies env.deps,
   check_secrets env.secretsFound,
   check_flagged_code env.rustLines,
   check_file_permissions env.perms]

/-! ### scripts/performance_benchmark.py — rating policy and benchmarks -/

/-- One benchmark outcome: its status, its ordinal rating when the
benchmark attaches one (`none` models the absence of the "rating" key),
and its message. Numeric payload fields are not read by the scoring
logic and are omitted. -/
structure BenchResult where
  status : String
  rating : Option String
  message : String
deriving Repr, DecidableEq

/-- Startup-latency rating thresholds (performance_benchmark.py,
`benchmark_startup_time`). -/
def startupRatingOf (avgTime : ℚ) : String :=
  if avgTime < 1/10 then "EXCELLENT"
  else if avgTime < 1/2 then "VERY_GOOD"
  else if avgTime < 1 then "GOOD"
  else if avgTime < 3 then "ACCEPTABLE"
  else "POOR"

/-- Binary-size rating thresholds (MB). -/
def binarySizeRatingOf (sizeMb : ℚ) : String :=
  if sizeMb < 5 then "EXCELLENT"
  else if sizeMb < 10 then "VERY_GOOD"
  else if sizeMb < 20 then "GOOD"
  else if sizeMb < 50 then "ACCEPTABLE"
  else "LARGE"

/-- Peak-memory rating thresholds (MB). -/
def memoryRatingOf (maxMemory : ℚ) : String :=
  if maxMemory < 50 then "EXCELLENT"
  else if maxMemory < 100 then "VERY_GOOD"
  else if maxMemory < 200 then "GOOD"
  else if maxMemory < 500 then "ACCEPTABLE"
  else "HIGH"

/-- performance_benchmark.py `benchmark_startup_time`: runs observed as
(exit code, elapsed seconds); only successful runs are samples. -/
def benchmark_startup_time (runs : List (Int × ℚ)) : BenchResult :=
  let times := runs.filterMap (fun p => if p.1 = 0 then some p.2 else none)
  if times = [] then
    ⟨"FAIL", none, "Could not measure startup time - all runs failed"⟩
  else
    ⟨"PASS", some (startupRatingOf (times.sum / times.length)), "Average startup time"⟩

/-- performance_benchmark.py `benchmark_help_command` (no rating key). -/
def benchmark_help_command (runs : List (Int × ℚ)) : BenchResult :=
  let times := runs.filterMap (fun p => if p.1 = 0 then some p.2 else none)
  if times = [] then ⟨"FAIL", none, "Could not measure help command time"⟩
  else ⟨"PASS", none, "Average help command time"⟩

/-- performance_benchmark.py `benchmark_config_generation`: a run counts
only when the command succeeded and the file exists (no rating key). -/
def benchmark_config_generation (runs : List (Int × Bool × ℚ)) : BenchResult :=
  let times := runs.filterMap (fun p => if p.1 = 0 ∧ p.2.1 then some p.2.2 else none)
  if times = [] then ⟨"FAIL", none, "Could not measure config generation time"⟩
  else ⟨"PASS", none, "Average config generation time"⟩

/-- performance_benchmark.py `benchmark_binary_size`: `stat` either
raises (ERROR) or yields the size in MB. -/
def benchmark_binary_size (statResult : Except String ℚ) : BenchResult :=
  match statResult with
  | .error e => ⟨"ERROR", none, "Could not analyze binary size: " ++ e⟩
  | .ok sizeMb => ⟨"PASS", some (binarySizeRatingOf sizeMb), "Binary size"⟩

/-- Observation for the benchmark script's memory check: psutil
availability, and either the samples collected or a raised exception. -/
structure BenchMemObs where
  psutilAvailable : Bool
  run : Except String (List ℚ)
deriving Repr

/-- performance_benchmark.py `benchmark_memory_usage`: note that an
empty sample list yields FAIL here (unlike the suite's memory check). -/
def benchmark_memory_usage (o : BenchMemObs) : BenchResult :=
  if ¬ o.psutilAvailable then
    ⟨"SKIP", none, "psutil not available for memory benchmarking"⟩
  else
    match o.run with
    | .error e => ⟨"ERROR", none, "Memory benchmarking failed: " ++ e⟩
    | .ok samples =>
      if samples = [] then ⟨"FAIL", none, "Could not collect memory samples"⟩
      else ⟨"PASS", some (memoryRatingOf (listMaxQ samples)), "Peak memory usage"⟩

/-- performance_benchmark.py `benchmark_concurrent_commands`: the
per-thread (exit code, duration) observations (no rating key). -/
def benchmark_concurrent_commands (runResults : List (Int × ℚ)) : BenchResult :=
  let successful := runResults.filter (fun p => p.1 = 0)
  if successful = [] then ⟨"FAIL", none, "No concurrent commands succeeded"⟩
  else ⟨"PASS", none, "Concurrent execution"⟩

/-- Environment for one `run_all_benchmarks`. -/
structure BenchEnv where
  startupRuns : List (Int × ℚ)
  helpRuns : List (Int × ℚ)
  configRuns : List (Int × Bool × ℚ)
  binarySizeStat : Except String ℚ
  memory : BenchMemObs
  concurrentRuns : List (Int × ℚ)

/-- The six benchmark outcomes of `run_all_benchmarks`, in dict order. -/
def allBenchmarks (env : BenchEnv) : List BenchResult :=
  [benchmark_startup_time env.startupRuns,
   benchmark_help_command env.helpRuns,
   benchmark_config_generation env.configRuns,
   benchmark_binary_size env.binarySizeStat,
   benchmark_memory_usage env.memory,
   benchmark_concurrent_commands env.concurrentRuns]

/-- The `rating_scores` table of `run_all_benchmarks`, with its default
of 3 for an unknown label. -/
def ratingScore (r : String) : ℕ :=
  if r = "EXCELLENT" then 5
  else if r = "VERY_GOOD" then 4
  else if r = "GOOD" then 3
  else if r = "ACCEPTABLE" then 2
  else if r = "POOR" ∨ r = "HIGH" ∨ r = "LARGE" then 1
  else 3

/-- The scores collected by `run_all_benchmarks`: one per benchmark
whose status is PASS and which carries a rating. -/
def benchRatingScores (bs : List BenchResult) : List ℕ :=
  bs.filterMap (fun b => if b.status = "PASS" then b.rating.map ratingScore else none)

/-- `overall_score` of `run_all_benchmarks`: mean of the collected
scores, defaulting to 3 when no benchmark was scored. -/
def overallScore (bs : List BenchResult) : ℚ :=
  let ratings := benchRatingScores bs
  if ratings = [] then 3 else (ratings.sum : ℚ) / ratings.length

/-- The score-band mapping of `run_all_benchmarks`. -/
def overallRatingOf (score : ℚ) : String :=
  if score ≥ 9/2 then "EXCELLENT"
  else if score ≥ 7/2 then "VERY_GOOD"
  else if score ≥ 5/2 then "GOOD"
  else if score ≥ 3/2 then "ACCEPTABLE"
  else "POOR"

structure BenchReport where
  overall_rating : String
  overall_score : ℚ
  benchmarks : List BenchResult

/-- performance_benchmark.py `run_all_benchmarks`. -/
def run_all_benchmarks (env : BenchEnv) : BenchReport :=
  let bs := allBenchmarks env
  ⟨overallRatingOf (overallScore bs), overallScore bs, bs⟩

/-- The exit-code policy of performance_benchmark.py `main`: zero iff
the overall rating is at least GOOD. -/
def benchMainExitCode (env : BenchEnv) : ℕ :=
  if (run_all_benchmarks env).overall_rating ∈
      (["EXCELLENT", "VERY_GOOD", "GOOD"] : List String) then 0 else 1

/-! ### scripts/aggregate_qa_results.py — multi-run aggregation -/

/-- One check record as the aggregator reads it from a persisted
report: its name and status. -/
structure AggResult where
  name : String
  status : String
deriving Repr, DecidableEq

/-- One persisted RunReport as `aggregate_results` reads it: the four
status counters, the declared total, and the check records. -/
structure AggReport where
  total_tests : ℕ
  passed : ℕ
  failed : ℕ
  skipped : ℕ
  errors : ℕ
  results : List AggResult
deriving Repr, DecidableEq

def aggTotalTests (rs : List AggReport) : ℕ := (rs.map (fun r => r.total_tests)).sum
def aggTotalPassed (rs : List AggReport) : ℕ := (rs.map (fun r => r.passed)).sum
def aggTotalFailed (rs : List AggReport) : ℕ := (rs.map (fun r => r.failed)).sum
def aggTotalErrors (rs : List AggReport) : ℕ := (rs.map (fun r => r.errors)).sum

/-- `overall_pass_rate = total_passed / max(1, total_tests)`. -/
def overall_pass_rate (rs : List AggReport) : ℚ :=
  (aggTotalPassed rs : ℚ) / ((max 1 (aggTotalTests rs) : ℕ) : ℚ)

/-- The status derivation of `aggregate_results`. -/
def aggregate_status (rs : List AggReport) : String :=
  if rs = [] then "NO_REPORTS"
  else if 0 < aggTotalErrors rs then "ERROR"
  else if 0 < aggTotalFailed rs then
    if overall_pass_rate rs ≥ 4/5 then "PASS_WITH_WARNINGS" else "FAIL"
  else "PASS"

/-- `failure_counts[k] = failure_counts.get(k, 0) + 1` on a Python dict:
increment the first entry with the key, else append the key at the end
(Python dicts preserve insertion order). -/
def bump (m : List (String × ℕ)) (k : String) : List (String × ℕ) :=
  match m with
  | [] => [(k, 1)]
  | (k', v) :: rest => if k' = k then (k', v + 1) :: rest else (k', v) :: bump rest k

/-- The failure-frequency dict of `aggregate_results`: scan every result
of every report and count the FAIL/ERROR ones by name. -/
def failure_counts (rs : List AggReport) : List (String × ℕ) :=
  rs.foldl (fun fc report =>
    report.results.foldl (fun fc result =>
      if result.status = "FAIL" ∨ result.status = "ERROR" then bump fc result.name
      else fc) fc) []

/-- `common_failures`: the dict items stably sorted by count,
descending (Python `sorted(..., key=count, reverse=True)`). -/
def common_failures (rs : List AggReport) : List (String × ℕ) :=
  List.insertionSort (fun a b : String × ℕ => b.2 ≤ a.2) (failure_counts rs)

/-! ### qa_dashboard.py — trend analysis -/

/-- The fields of a persisted report that `calculate_trends` reads. -/
structure TrendReport where
  passed : ℕ
  total_tests : ℕ
deriving Repr, DecidableEq

/-- The pass-rate data points: one per in-window report with a positive
test total, in the given (most-recent-first) order. -/
def passRates (rs : List TrendReport) : List ℚ :=
  rs.filterMap (fun r =>
    if 0 < r.total_tests then some ((r.passed : ℚ) / (r.total_tests : ℚ)) else none)

/-- The trend direction computed by qa_dashboard.py `calculate_trends`
(the `trend` field of its result; the windowed averages it also reports
are not involved in any claim). -/
def calculate_trends (reports : List TrendReport) : String :=
  if reports.length < 1 then "insufficient_data"
  else
    let pr := passRates reports
    if 2 ≤ pr.length then
      let recentAvg := (pr.take 3).sum / ((min 3 pr.length : ℕ) : ℚ)
      let olderAvg := ((pr.drop 3).take 3).sum /
        ((max 1 (min 3 (pr.drop 3).length) : ℕ) : ℚ)
      if recentAvg > olderAvg then "improving"
      else if recentAvg < olderAvg then "declining"
      else "stable"
    else "stable"

/-! ### Spec-side definitions and concrete instances used by the claims -/

/-- The closed status enumeration of the spec's data model. -/
def statusSet : List String := ["PASS", "FAIL", "SKIP", "ERROR"]

/-- Spec-side: the names, in scan order, of the check results with
status FAIL or ERROR across all reports. -/
def failNames (rs : List AggReport) : List String :=
  ((rs.flatMap (fun r => r.results)).filter
    (fun c => c.status == "FAIL" || c.status == "ERROR")).map (fun c => c.name)

/-- Spec-side: the number of individual check results named `name` with
status FAIL or ERROR across all reports. -/
def failCount (rs : List AggReport) (name : String) : ℕ :=
  ((rs.flatMap (fun r => r.results)).filter
    (fun c => (c.status == "FAIL" || c.status == "ERROR") && c.name == name)).length

/-- Spec-side: a name sequence deduplicated to first encounters, in
encounter order. -/
def firstEncounteredNames (names : List String) : List String :=
  names.foldl (fun acc n => if n ∈ acc then acc else acc ++ [n]) []

/-- First-match lookup in an association list, defaulting to 0
(Python `d.get(k, 0)`). -/
def lookupD : List (String × ℕ) → String → ℕ
  | [], _ => 0
  | (k', v) :: rest, k => if k' = k then v else lookupD rest k

/-- Spec-side: the mean of a window of pass rates, read as 0 on an
empty window. -/
def specMean (l : List ℚ) : ℚ := if l = [] then 0 else l.sum / l.length

instance : IsTotal (String × ℕ) (fun a b => b.2 ≤ a.2) :=
  ⟨fun a b => Nat.le_total b.2 a.2⟩

instance : IsTrans (String × ℕ) (fun a b => b.2 ≤ a.2) :=
  ⟨fun _ _ _ h1 h2 => Nat.le_trans h2 h1⟩

/-- A suite environment in which every check raises. -/
def envAllError : SuiteEnv :=
  ⟨.error "e", .error "e", .error "e", .error "e", .error "e",
   .error "e", .error "e", .error "e", .error "e", .error "e"⟩

/-- A benign security-checker environment. -/
def senvDefault : SecurityEnv :=
  ⟨⟨0, true, 0⟩, ⟨true, .ok ""⟩, [], [], ⟨true, []⟩⟩

/-- A benchmark environment in which no benchmark earns a rating:
timing benchmarks have no successful run, the size stat raises, psutil
is unavailable, and no concurrent run succeeds. -/
def benchEnvNoRatings : BenchEnv :=
  ⟨[], [], [], .error "stat failed", ⟨false, .ok []⟩, []⟩

/-- The two-report scenario of the aggregation claim: one all-PASS run
of 5 tests and one run of 5 tests with exactly 1 FAIL and no errors. -/
def c1Reports : List AggReport :=
  [⟨5, 5, 0, 0, 0, List.replicate 5 ⟨"t", "PASS"⟩⟩,
   ⟨5, 4, 1, 0, 0, ⟨"t5", "FAIL"⟩ :: List.replicate 4 ⟨"t", "PASS"⟩⟩]

/-- A benchmark environment in which exactly one benchmark (binary
size, 1 MB) earns a rating. -/
def benchEnvOneRating : BenchEnv :=
  ⟨[], [], [], .ok 1, ⟨false, .ok []⟩, []⟩

/-! ### Claim C1 — aggregate status derivation -/

lemma aggErrors_pos_iff (rs : List AggReport) :
    0 < aggTotalErrors rs ↔ ∃ r ∈ rs, r.errors ≠ 0 := by
  rw [aggTotalErrors, Nat.pos_iff_ne_zero, ne_eq, List.sum_eq_zero_iff]
  push_neg
  simp

lemma aggFailed_pos_iff (rs : List AggReport) :
    0 < aggTotalFailed rs ↔ ∃ r ∈ rs, r.failed ≠ 0 := by
  rw [aggTotalFailed, Nat.pos_iff_ne_zero, ne_eq, List.sum_eq_zero_iff]
  push_neg
  simp

/-- Claim C1: the aggregator's overall status follows the exact
priority order empty ⇒ NO_REPORTS, any non-zero error count ⇒ ERROR,
any failure with overall pass rate ≥ 0.8 ⇒ PASS_WITH_WARNINGS, any
failure ⇒ FAIL, else PASS; and the two-report scenario (5/5 PASS plus
4/5 with one FAIL) has pass rate 9/10 and status PASS_WITH_WARNINGS. -/
theorem C1_aggregate_status_priority :
    (∀ rs : List AggReport,
      aggregate_status rs =
        if rs = [] then "NO_REPORTS"
        else if ∃ r ∈ rs, r.errors ≠ 0 then "ERROR"
        else if ∃ r ∈ rs, r.failed ≠ 0 then
          if overall_pass_rate rs ≥ 4/5 then "PASS_WITH_WARNINGS" else "FAIL"
        else "PASS") ∧
    overall_pass_rate c1Reports = 9/10 ∧
    aggregate_status c1Reports = "PASS_WITH_WARNINGS" := by
  refine ⟨?_, ?_, ?_⟩
  · intro rs
    by_cases h0 : rs = []
    · simp [aggregate_status, h0]
    · rw [aggregate_status, if_neg h0, if_neg h0]
      by_cases he : ∃ r ∈ rs, r.errors ≠ 0
      · rw [if_pos ((aggErrors_pos_iff rs).mpr he), if_pos he]
      · rw [if_neg (fun hc => he ((aggErrors_pos_iff rs).mp hc)), if_neg he]
        by_cases hf : ∃ r ∈ rs, r.failed ≠ 0
        · rw [if_pos ((aggFailed_pos_iff rs).mpr hf), if_pos hf]
        · rw [if_neg (fun hc => hf ((aggFailed_pos_iff rs).mp hc)), if_neg hf]
  · norm_num [overall_pass_rate, aggTotalPassed, aggTotalTests, c1Reports]
  · rw [aggregate_status]
    rw [if_neg (by simp [c1Reports]),
      if_neg (by norm_num [aggTotalErrors, c1Reports]),
      if_pos (by norm_num [aggTotalFailed, c1Reports]),
      if_pos (by norm_num [overall_pass_rate, aggTotalPassed, aggTotalTests, c1Reports])]

/-! ### Claim C2 — zero memory samples: suite SKIPs, benchmark FAILs -/

/-- Claim C2 counterexample: the benchmark script's memory check with
psutil available and zero collected samples yields FAIL, not SKIP. -/
theorem C2_counterexample_bench_memory_fail :
    (benchmark_memory_usage ⟨true, .ok ([] : List ℚ)⟩).status = "FAIL" ∧
    (benchmark_memory_usage ⟨true, .ok ([] : List ℚ)⟩).status ≠ "SKIP" := by
  decide

/-- Claim C2 as amended: the suite's memory check yields SKIP whenever
zero samples were collected; the benchmark script's memory check yields
SKIP only when psutil is unavailable, and yields FAIL when psutil is
available and zero samples were collected. -/
theorem C2_amended_memory_no_samples :
    (∀ o : MemoryObs, o.samples = [] → (test_memory_usage o).status = "SKIP") ∧
    (∀ b : BenchMemObs, b.psutilAvailable = false →
      (benchmark_memory_usage b).status = "SKIP") ∧
    (∀ samples : List ℚ, samples = [] →
      (benchmark_memory_usage ⟨true, .ok samples⟩).status = "FAIL") := by
  refine ⟨?_, ?_, ?_⟩
  · intro o h
    by_cases hp : o.psutilAvailable <;> simp [test_memory_usage, h, hp]
  · intro b h
    simp [benchmark_memory_usage, h]
  · intro samples h
    subst h
    decide

theorem C2_witness :
    (test_memory_usage ⟨true, []⟩).status = "SKIP" ∧
    (benchmark_memory_usage ⟨false, .ok []⟩).status = "SKIP" ∧
    (benchmark_memory_usage ⟨true, .ok []⟩).status = "FAIL" :=
  ⟨C2_amended_memory_no_samples.1 ⟨true, []⟩ rfl,
   C2_amended_memory_no_samples.2.1 ⟨false, .ok []⟩ rfl,
   C2_amended_memory_no_samples.2.2 [] rfl⟩

/-! ### Claim C4 — overall suite status is PASS iff no failures and no errors -/

/-- Claim C4: for every report a suite run produces, the summary's
overall status is PASS if and only if the failed count and the errors
count are both 0; skipped results never make the status non-PASS. -/
theorem C4_overall_status_iff :
    ∀ (env : SuiteEnv) (cats : Option (List String)),
      (run_all_tests env cats).overall_status = "PASS" ↔
      ((run_all_tests env cats).failed = 0 ∧ (run_all_tests env cats).errors = 0) := by
  intro env cats
  simp only [run_all_tests, mkQAReport]
  split_ifs with h
  · simpa using h
  · simpa using h

theorem C4_witness :
    (run_all_tests envAllError none).overall_status = "PASS" ↔
    ((run_all_tests envAllError none).failed = 0 ∧
      (run_all_tests envAllError none).errors = 0) :=
  C4_overall_status_iff envAllError none

/-! ### Claim C6 — rating thresholds are monotone -/

/-- Claim C6: each of the three rating tables (startup latency, binary
size, peak memory) is monotone: a strictly smaller measurement never
receives a worse ordinal rating, where the ordinal order is
EXCELLENT > VERY_GOOD > GOOD > ACCEPTABLE > POOR/HIGH/LARGE
(compared here through the source's own ordinal scores 5..1). -/
theorem C6_rating_monotone :
    ∀ v1 v2 : ℚ, v1 < v2 →
      ratingScore (startupRatingOf v2) ≤ ratingScore (startupRatingOf v1) ∧
      ratingScore (binarySizeRatingOf v2) ≤ ratingScore (binarySizeRatingOf v1) ∧
      ratingScore (memoryRatingOf v2) ≤ ratingScore (memoryRatingOf v1) := by
  intro v1 v2 h
  refine ⟨?_, ?_, ?_⟩
  · unfold startupRatingOf
    split_ifs <;> first | decide | linarith
  · unfold binarySizeRatingOf
    split_ifs <;> first | decide | linarith
  · unfold memoryRatingOf
    split_ifs <;> first | decide | linarith

theorem C6_witness :
    ratingScore (startupRatingOf 1) ≤ ratingScore (startupRatingOf 0) ∧
    ratingScore (binarySizeRatingOf 1) ≤ ratingScore (binarySizeRatingOf 0) ∧
    ratingScore (memoryRatingOf 1) ≤ ratingScore (memoryRatingOf 0) :=
  C6_rating_monotone 0 1 (by norm_num)

/-! ### Claim C10 — a run with zero rated metrics reports GOOD and exits 0 -/

/-- Claim C10: when no benchmark contributes a (PASS, rating) pair, the
overall score defaults to 3, the overall rating is GOOD, and the
benchmark process exits with code 0. -/
theorem C10_no_ratings_defaults_good :
    ∀ env : BenchEnv, benchRatingScores (allBenchmarks env) = [] →
      (run_all_benchmarks env).overall_score = 3 ∧
      (run_all_benchmarks env).overall_rating = "GOOD" ∧
      benchMainExitCode env = 0 := by
  intro env h
  have hs : overallScore (allBenchmarks env) = 3 := by
    simp only [overallScore]
    rw [if_pos h]
  have hr : overallRatingOf 3 = "GOOD" := by norm_num [overallRatingOf]
  refine ⟨?_, ?_, ?_⟩
  · simp [run_all_benchmarks, hs]
  · simp [run_all_benchmarks, hs, hr]
  · simp [benchMainExitCode, run_all_benchmarks, hs, hr]

theorem C10_witness :
    (run_all_benchmarks benchEnvNoRatings).overall_score = 3 ∧
    (run_all_benchmarks benchEnvNoRatings).overall_rating = "GOOD" ∧
    benchMainExitCode benchEnvNoRatings = 0 :=
  C10_no_ratings_defaults_good benchEnvNoRatings (by decide)

/-! ### Claims C3 and C8 — status enumeration and report counters -/

lemma status_mem_binary (o : BinaryObs) :
    (test_binary_exists o).status ∈ statusSet := by
  unfold test_binary_exists
  split_ifs <;> decide

lemma status_mem_help (o : CmdObs) :
    (test_help_command o).status ∈ statusSet := by
  unfold test_help_command
  dsimp only
  split_ifs <;> decide

lemma status_mem_version (o : CmdObs) :
    (test_version_command o).status ∈ statusSet := by
  unfold test_version_command
  split_ifs <;> decide

lemma status_mem_formats (o : CmdObs) :
    (test_supported_formats o).status ∈ statusSet := by
  unfold test_supported_formats
  dsimp only
  split_ifs <;> decide

lemma status_mem_config (o : ConfigObs) :
    (test_generate_config o).status ∈ statusSet := by
  unfold test_generate_config
  dsimp only
  split_ifs <;> decide

lemma status_mem_invalid (o : CmdObs) :
    (test_invalid_command o).status ∈ statusSet := by
  unfold test_invalid_command
  dsimp only
  split_ifs <;> decide

lemma status_mem_startup (runs : List (Int × ℚ)) :
    (test_performance_startup runs).status ∈ statusSet := by
  unfold test_performance_startup
  dsimp only
  split_ifs <;> decide

lemma status_mem_memory (o : MemoryObs) :
    (test_memory_usage o).status ∈ statusSet := by
  unfold test_memory_usage
  dsimp only
  split_ifs <;> decide

lemma status_mem_quality (o : CmdObs) :
    (test_code_quality o).status ∈ statusSet := by
  unfold test_code_quality
  dsimp only
  split_ifs <;> decide

lemma status_mem_rebuild (o : RebuildObs) :
    (test_build_reproducibility o).status ∈ statusSet := by
  unfold test_build_reproducibility
  split_ifs <;> decide

lemma status_mem_runCheck (n c : String) (f : α → TestResult)
    (hf : ∀ o, (f o).status ∈ statusSet) (e : Except String α) :
    (runCheck n c f e).status ∈ statusSet := by
  cases e with
  | error m => simp [runCheck, statusSet]
  | ok o => exact hf o

lemma suiteChecks_status_mem (env : SuiteEnv) :
    ∀ p ∈ suiteChecks env, ∀ x ∈ p.2, x.status ∈ statusSet := by
  intro p hp x hx
  fin_cases hp <;> fin_cases hx
  · exact status_mem_runCheck _ _ _ status_mem_binary _
  · exact status_mem_runCheck _ _ _ status_mem_rebuild _
  · exact status_mem_runCheck _ _ _ status_mem_help _
  · exact status_mem_runCheck _ _ _ status_mem_version _
  · exact status_mem_runCheck _ _ _ status_mem_formats _
  · exact status_mem_runCheck _ _ _ status_mem_config _
  · exact status_mem_runCheck _ _ _ status_mem_invalid _
  · exact status_mem_runCheck _ _ _ status_mem_startup _
  · exact status_mem_runCheck _ _ _ status_mem_memory _
  · exact status_mem_runCheck _ _ _ status_mem_quality _

/-- Every result a suite run records has a status in the closed
enumeration {PASS, FAIL, SKIP, ERROR}. -/
lemma suite_status_mem (env : SuiteEnv) (cats : Option (List String)) :
    ∀ r ∈ (run_all_tests env cats).results, r.status ∈ statusSet := by
  intro r hr
  cases cats with
  | none =>
    simp only [run_all_tests, mkQAReport] at hr
    rw [List.mem_flatMap] at hr
    obtain ⟨p, hp, hrp⟩ := hr
    exact suiteChecks_status_mem env p hp r hrp
  | some cs =>
    simp only [run_all_tests, mkQAReport] at hr
    rw [List.mem_flatMap] at hr
    obtain ⟨p, hp, hrp⟩ := hr
    exact suiteChecks_status_mem env p (List.mem_of_mem_filter hp) r hrp

/-- The four status counters partition any result list whose statuses
come from the closed enumeration. -/
lemma count_partition (l : List TestResult)
    (h : ∀ r ∈ l, r.status ∈ statusSet) :
    (l.filter (fun r => r.status == "PASS")).length +
    (l.filter (fun r => r.status == "FAIL")).length +
    (l.filter (fun r => r.status == "SKIP")).length +
    (l.filter (fun r => r.status == "ERROR")).length = l.length := by
  induction l with
  | nil => simp
  | cons x xs ih =>
    have hx : x.status ∈ statusSet := h x (List.mem_cons_self x xs)
    have ih' := ih (fun r hr => h r (List.mem_cons_of_mem x hr))
    simp only [statusSet, List.mem_cons, List.not_mem_nil, or_false] at hx
    rcases hx with h1 | h1 | h1 | h1 <;>
      simp only [List.filter_cons, h1] <;> simp <;> omega

lemma mkQAReport_invariants (l : List TestResult)
    (h : ∀ r ∈ l, r.status ∈ statusSet) :
    (mkQAReport l).passed + (mkQAReport l).failed + (mkQAReport l).skipped +
      (mkQAReport l).errors = (mkQAReport l).total_tests ∧
    0 ≤ (mkQAReport l).pass_rate ∧ (mkQAReport l).pass_rate ≤ 1 ∧
    ((mkQAReport l).total_tests = 0 → (mkQAReport l).pass_rate = 0) := by
  have hpr : (mkQAReport l).pass_rate =
      if l = [] then (0 : ℚ)
      else ((l.filter (fun r => r.status == "PASS")).length : ℚ) / l.length := rfl
  refine ⟨count_partition l h, ?_, ?_, ?_⟩
  · rw [hpr]
    split_ifs
    · exact le_refl 0
    · positivity
  · rw [hpr]
    split_ifs with hl
    · norm_num
    · rw [div_le_one (by exact_mod_cast List.length_pos.mpr hl)]
      exact_mod_cast List.length_filter_le _ l
  · intro h0
    have hl : l = [] := List.length_eq_zero.mp h0
    rw [hpr, if_pos hl]

/-- Claim C3: every report a suite run produces satisfies
passed + failed + skipped + errors = total_tests, has a pass rate in
[0, 1], and has pass rate 0 when total_tests is 0. -/
theorem C3_report_invariants :
    ∀ (env : SuiteEnv) (cats : Option (List String)),
      (run_all_tests env cats).passed + (run_all_tests env cats).failed +
        (run_all_tests env cats).skipped + (run_all_tests env cats).errors =
        (run_all_tests env cats).total_tests ∧
      0 ≤ (run_all_tests env cats).pass_rate ∧
      (run_all_tests env cats).pass_rate ≤ 1 ∧
      ((run_all_tests env cats).total_tests = 0 →
        (run_all_tests env cats).pass_rate = 0) := by
  intro env cats
  exact mkQAReport_invariants _ (suite_status_mem env cats)

theorem C3_witness :
    ((run_all_tests envAllError (some [])).pass_rate = 0) ∧
    ((run_all_tests envAllError none).passed + (run_all_tests envAllError none).failed +
      (run_all_tests envAllError none).skipped + (run_all_tests envAllError none).errors =
      (run_all_tests envAllError none).total_tests) :=
  ⟨(C3_report_invariants envAllError (some [])).2.2.2 (by decide),
   (C3_report_invariants envAllError none).1⟩

lemma sec_status_audit (o : AuditObs) :
    (check_cargo_audit o).status ∈ ("WARN" :: statusSet) := by
  unfold check_cargo_audit
  split_ifs <;> decide

lemma sec_status_deps (o : DepsObs) :
    (check_dependencies o).status ∈ ("WARN" :: statusSet) := by
  obtain ⟨ce, rr⟩ := o
  cases rr <;> unfold check_dependencies <;> dsimp only <;> split_ifs <;>
    first | decide | simp [statusSet]

lemma sec_status_secrets (found : List String) :
    (check_secrets found).status ∈ ("WARN" :: statusSet) := by
  unfold check_secrets
  split_ifs <;> decide

lemma sec_status_flagged (lines : List String) :
    (check_flagged_code lines).status ∈ ("WARN" :: statusSet) := by
  unfold check_flagged_code
  dsimp only
  split_ifs <;> decide

lemma sec_status_permissions (o : PermObs) :
    (check_file_permissions o).status ∈ ("WARN" :: statusSet) := by
  unfold check_file_permissions
  dsimp only
  split_ifs <;> decide

/-- Claim C8 counterexample: the security checker's dependency check on
a Cargo.toml containing a git dependency yields the status WARN, which
is outside the enumeration {PASS, FAIL, SKIP, ERROR}. -/
theorem C8_counterexample_warn_status :
    (check_dependencies ⟨true, .ok "git ="⟩).status = "WARN" ∧
    (check_dependencies ⟨true, .ok "git ="⟩).status ∉ statusSet := by
  constructor
  · rfl
  · decide

/-- Claim C8 as amended: every result of the suite's checks has a
status in {PASS, FAIL, SKIP, ERROR}; the security checker's checks draw
from {WARN, PASS, FAIL, SKIP, ERROR} — its dependency, flagged-code and
file-permission checks can yield WARN. -/
theorem C8_amended_status_enumeration :
    (∀ (env : SuiteEnv) (cats : Option (List String)),
      ∀ r ∈ (run_all_tests env cats).results, r.status ∈ statusSet) ∧
    (∀ senv : SecurityEnv, ∀ c ∈ securityCheckResults senv,
      c.status ∈ ("WARN" :: statusSet)) := by
  constructor
  · exact fun env cats => suite_status_mem env cats
  · intro senv c hc
    fin_cases hc
    · exact sec_status_audit _
    · exact sec_status_deps _
    · exact sec_status_secrets _
    · exact sec_status_flagged _
    · exact sec_status_permissions _

theorem C8_witness :
    ((⟨"test_binary_exists", "build", "ERROR", "Test execution error: e"⟩ :
        TestResult).status ∈ statusSet) ∧
    ((check_file_permissions ⟨true, []⟩).status ∈ ("WARN" :: statusSet)) := by
  constructor
  · exact C8_amended_status_enumeration.1 envAllError none _ (by decide)
  · exact C8_amended_status_enumeration.2 senvDefault _ (by decide)

/-! ### Claim C5 — trend direction -/

/-- Claim C5: the trend direction is insufficient_data for an empty
report sequence, stable for exactly one pass-rate data point, and with
at least two data points compares the mean of the most-recent up-to-3
pass rates with the mean of the next up-to-3 older ones (an empty older
window reading as 0): greater means improving, smaller declining, equal
stable. The scenario of pass rates 1.0, 1.0, 0.5 (oldest last) yields
improving. -/
theorem C5_trend_direction :
    calculate_trends [] = "insufficient_data" ∧
    (∀ rs : List TrendReport, (passRates rs).length = 1 →
      calculate_trends rs = "stable") ∧
    (∀ rs : List TrendReport, 2 ≤ (passRates rs).length →
      calculate_trends rs =
        (if specMean (((passRates rs).drop 3).take 3) <
            specMean ((passRates rs).take 3) then "improving"
         else if specMean ((passRates rs).take 3) <
            specMean (((passRates rs).drop 3).take 3) then "declining"
         else "stable")) ∧
    calculate_trends [⟨1, 1⟩, ⟨1, 1⟩, ⟨1, 2⟩] = "improving" := by
  refine ⟨rfl, ?_, ?_, ?_⟩
  · intro rs h1
    have hrs : rs ≠ [] := by
      intro he
      rw [he] at h1
      simp [passRates] at h1
    have hpos := List.length_pos.mpr hrs
    rw [calculate_trends, if_neg (by omega)]
    dsimp only
    rw [if_neg (by omega)]
  · intro rs h2
    have hprne : passRates rs ≠ [] := by
      intro he
      rw [he] at h2
      simp at h2
    have hrs : rs ≠ [] := by
      intro he
      rw [he] at hprne
      simp [passRates] at hprne
    have hpos := List.length_pos.mpr hrs
    have htne : (passRates rs).take 3 ≠ [] := by
      intro he
      simp [List.take_eq_nil_iff, hprne] at he
    have hA : ((passRates rs).take 3).sum /
        ((min 3 (passRates rs).length : ℕ) : ℚ) = specMean ((passRates rs).take 3) := by
      rw [specMean, if_neg htne, List.length_take]
    have hB : (((passRates rs).drop 3).take 3).sum /
        ((max 1 (min 3 ((passRates rs).drop 3).length) : ℕ) : ℚ) =
        specMean (((passRates rs).drop 3).take 3) := by
      by_cases hd : (passRates rs).drop 3 = []
      · simp [hd, specMean]
      · have hdpos := List.length_pos.mpr hd
        have hdtne : ((passRates rs).drop 3).take 3 ≠ [] := by
          intro he
          simp [List.take_eq_nil_iff, hd] at he
        rw [specMean, if_neg hdtne, List.length_take,
          max_eq_right (le_min (by norm_num) hdpos)]
    rw [calculate_trends, if_neg (by omega)]
    dsimp only
    rw [if_pos h2, hA, hB]
  · have h : passRates [⟨1, 1⟩, ⟨1, 1⟩, ⟨1, 2⟩] = [1, 1, 1/2] := by
      norm_num [passRates, List.filterMap_cons]
    rw [calculate_trends, h]
    norm_num

theorem C5_witness :
    calculate_trends [⟨1, 1⟩] = "stable" ∧
    calculate_trends [⟨1, 1⟩, ⟨1, 2⟩] =
      (if specMean (((passRates [⟨1, 1⟩, ⟨1, 2⟩]).drop 3).take 3) <
          specMean ((passRates [⟨1, 1⟩, ⟨1, 2⟩]).take 3) then "improving"
       else if specMean ((passRates [⟨1, 1⟩, ⟨1, 2⟩]).take 3) <
          specMean (((passRates [⟨1, 1⟩, ⟨1, 2⟩]).drop 3).take 3) then "declining"
       else "stable") :=
  ⟨C5_trend_direction.2.1 [⟨1, 1⟩] (by norm_num [passRates, List.filterMap_cons]),
   C5_trend_direction.2.2.1 [⟨1, 1⟩, ⟨1, 2⟩]
     (by norm_num [passRates, List.filterMap_cons])⟩

/-! ### Claim C7 — overall benchmark rating is the mean of rated metrics -/

lemma rating_pass_startup (runs : List (Int × ℚ)) :
    (benchmark_startup_time runs).rating.isSome →
    (benchmark_startup_time runs).status = "PASS" := by
  unfold benchmark_startup_time
  dsimp only
  split_ifs <;> simp

lemma rating_pass_help (runs : List (Int × ℚ)) :
    (benchmark_help_command runs).rating.isSome →
    (benchmark_help_command runs).status = "PASS" := by
  unfold benchmark_help_command
  dsimp only
  split_ifs <;> simp

lemma rating_pass_config (runs : List (Int × Bool × ℚ)) :
    (benchmark_config_generation runs).rating.isSome →
    (benchmark_config_generation runs).status = "PASS" := by
  unfold benchmark_config_generation
  dsimp only
  split_ifs <;> simp

lemma rating_pass_size (st : Except String ℚ) :
    (benchmark_binary_size st).rating.isSome →
    (benchmark_binary_size st).status = "PASS" := by
  cases st <;> simp [benchmark_binary_size]

lemma rating_pass_memory (o : BenchMemObs) :
    (benchmark_memory_usage o).rating.isSome →
    (benchmark_memory_usage o).status = "PASS" := by
  obtain ⟨p, rr⟩ := o
  cases rr <;> unfold benchmark_memory_usage <;> dsimp only <;>
    split_ifs <;> simp

lemma rating_pass_concurrent (runs : List (Int × ℚ)) :
    (benchmark_concurrent_commands runs).rating.isSome →
    (benchmark_concurrent_commands runs).status = "PASS" := by
  unfold benchmark_concurrent_commands
  dsimp only
  split_ifs <;> simp

lemma filterMap_congr_mem {α β : Type} (l : List α) (f g : α → Option β)
    (h : ∀ a ∈ l, f a = g a) : l.filterMap f = l.filterMap g := by
  induction l with
  | nil => rfl
  | cons x xs ih =>
    rw [List.filterMap_cons, List.filterMap_cons,
      h x (List.mem_cons_self x xs), ih (fun a ha => h a (List.mem_cons_of_mem x ha))]

/-- Claim C7: a rating is only ever attached to a PASS benchmark, so
the collected scores are exactly those of the metrics that produced a
rating; the ordinal scores are EXCELLENT=5 down to POOR/HIGH/LARGE=1;
and when at least one metric was scored, the overall score is their
arithmetic mean and the overall rating is that mean mapped through the
fixed bands 4.5/3.5/2.5/1.5. -/
theorem C7_overall_rating_mean :
    ∀ env : BenchEnv,
      (∀ b ∈ allBenchmarks env, b.rating.isSome → b.status = "PASS") ∧
      benchRatingScores (allBenchmarks env) =
        (allBenchmarks env).filterMap (fun b => b.rating.map ratingScore) ∧
      (ratingScore "EXCELLENT" = 5 ∧ ratingScore "VERY_GOOD" = 4 ∧
        ratingScore "GOOD" = 3 ∧ ratingScore "ACCEPTABLE" = 2 ∧
        ratingScore "POOR" = 1 ∧ ratingScore "HIGH" = 1 ∧ ratingScore "LARGE" = 1) ∧
      (benchRatingScores (allBenchmarks env) ≠ [] →
        (run_all_benchmarks env).overall_score =
          ((benchRatingScores (allBenchmarks env)).sum : ℚ) /
            (benchRatingScores (allBenchmarks env)).length ∧
        (run_all_benchmarks env).overall_rating =
          (if (run_all_benchmarks env).overall_score ≥ 9/2 then "EXCELLENT"
           else if (run_all_benchmarks env).overall_score ≥ 7/2 then "VERY_GOOD"
           else if (run_all_benchmarks env).overall_score ≥ 5/2 then "GOOD"
           else if (run_all_benchmarks env).overall_score ≥ 3/2 then "ACCEPTABLE"
           else "POOR")) := by
  intro env
  have hpass : ∀ b ∈ allBenchmarks env, b.rating.isSome → b.status = "PASS" := by
    intro b hb
    fin_cases hb
    · exact rating_pass_startup _
    · exact rating_pass_help _
    · exact rating_pass_config _
    · exact rating_pass_size _
    · exact rating_pass_memory _
    · exact rating_pass_concurrent _
  refine ⟨hpass, ?_, by decide, ?_⟩
  · rw [benchRatingScores]
    apply filterMap_congr_mem
    intro b hb
    by_cases hs : b.status = "PASS"
    · rw [if_pos hs]
    · rw [if_neg hs]
      cases hr : b.rating with
      | none => rfl
      | some v => exact absurd (hpass b hb (by rw [hr]; rfl)) hs
  · intro hne
    constructor
    · show overallScore (allBenchmarks env) = _
      rw [overallScore]
      rw [if_neg hne]
    · rfl

theorem C7_witness :
    (benchmark_binary_size (.ok 1)).status = "PASS" ∧
    (run_all_benchmarks benchEnvOneRating).overall_score =
      ((benchRatingScores (allBenchmarks benchEnvOneRating)).sum : ℚ) /
        (benchRatingScores (allBenchmarks benchEnvOneRating)).length := by
  constructor
  · exact (C7_overall_rating_mean benchEnvOneRating).1 _
      (by simp [allBenchmarks, benchEnvOneRating]) (by rfl)
  · exact ((C7_overall_rating_mean benchEnvOneRating).2.2.2
      (by simp [benchRatingScores, allBenchmarks, benchEnvOneRating,
        benchmark_startup_time, benchmark_help_command, benchmark_config_generation,
        benchmark_binary_size, benchmark_memory_usage,
        benchmark_concurrent_commands])).1

/-! ### Claim C9 — failure-frequency table -/

lemma lookupD_bump (m : List (String × ℕ)) (k q : String) :
    lookupD (bump m k) q = lookupD m q + (if q = k then 1 else 0) := by
  induction m with
  | nil =>
    by_cases h : q = k
    · subst h
      simp [bump, lookupD]
    · simp [bump, lookupD, h, Ne.symm h]
  | cons a rest ih =>
    obtain ⟨ka, va⟩ := a
    by_cases hak : ka = k
    · subst hak
      by_cases hq : ka = q
      · subst hq
        simp [bump, lookupD]
      · simp [bump, lookupD, hq, Ne.symm hq]
    · by_cases hq : ka = q
      · subst hq
        simp [bump, lookupD, hak, Ne.symm hak]
      · simp [bump, lookupD, hak, hq, ih]

lemma keys_bump (m : List (String × ℕ)) (k : String) :
    (bump m k).map Prod.fst =
      if k ∈ m.map Prod.fst then m.map Prod.fst else m.map Prod.fst ++ [k] := by
  induction m with
  | nil => simp [bump]
  | cons a rest ih =>
    obtain ⟨ka, va⟩ := a
    by_cases hak : ka = k
    · subst hak
      simp [bump]
    · simp only [bump, if_neg hak, List.map_cons, ih]
      by_cases hc : k ∈ rest.map Prod.fst
      · simp [hc, List.mem_cons, Ne.symm hak]
      · simp [hc, List.mem_cons, Ne.symm hak]

lemma values_pos_bump (m : List (String × ℕ)) (k : String)
    (h : ∀ p ∈ m, 0 < p.2) : ∀ p ∈ bump m k, 0 < p.2 := by
  induction m with
  | nil =>
    intro p hp
    rw [bump, List.mem_singleton] at hp
    subst hp
    norm_num
  | cons a rest ih =>
    obtain ⟨ka, va⟩ := a
    by_cases hak : ka = k
    · subst hak
      intro p hp
      rw [bump, if_pos rfl] at hp
      rcases List.mem_cons.mp hp with h1 | h1
      · subst h1
        omega
      · exact h p (List.mem_cons_of_mem _ h1)
    · intro p hp
      rw [bump, if_neg hak] at hp
      rcases List.mem_cons.mp hp with h1 | h1
      · subst h1
        exact h _ (List.mem_cons_self _ _)
      · exact ih (fun q hq => h q (List.mem_cons_of_mem _ hq)) p h1

lemma lookupD_foldl_bump (names : List String) :
    ∀ (m : List (String × ℕ)) (q : String),
      lookupD (names.foldl bump m) q = lookupD m q + names.count q := by
  induction names with
  | nil =>
    intro m q
    simp
  | cons n ns ih =>
    intro m q
    rw [List.foldl_cons, ih, lookupD_bump, List.count_cons]
    simp only [beq_iff_eq]
    split_ifs <;> first | omega | simp_all

lemma keys_foldl_bump (names : List String) :
    ∀ m : List (String × ℕ),
      (names.foldl bump m).map Prod.fst =
        names.foldl (fun acc n => if n ∈ acc then acc else acc ++ [n])
          (m.map Prod.fst) := by
  induction names with
  | nil => intro m; rfl
  | cons n ns ih =>
    intro m
    rw [List.foldl_cons, List.foldl_cons, ih (bump m n), keys_bump]

lemma values_pos_foldl_bump (names : List String) :
    ∀ m : List (String × ℕ), (∀ p ∈ m, 0 < p.2) →
      ∀ p ∈ names.foldl bump m, 0 < p.2 := by
  induction names with
  | nil => intro m hm; exact hm
  | cons n ns ih =>
    intro m hm
    rw [List.foldl_cons]
    exact ih (bump m n) (values_pos_bump m n hm)

lemma firstEnc_foldl_nodup (names : List String) :
    ∀ l : List String, l.Nodup →
      (names.foldl (fun acc n => if n ∈ acc then acc else acc ++ [n]) l).Nodup := by
  induction names with
  | nil => intro l hl; exact hl
  | cons n ns ih =>
    intro l hl
    rw [List.foldl_cons]
    by_cases hc : n ∈ l
    · rw [if_pos hc]
      exact ih l hl
    · rw [if_neg hc]
      apply ih
      rw [List.nodup_append]
      refine ⟨hl, List.nodup_singleton n, ?_⟩
      intro a ha hb
      rw [List.mem_singleton] at hb
      subst hb
      exact hc ha

lemma mem_iff_lookupD (m : List (String × ℕ)) :
    (m.map Prod.fst).Nodup → (∀ p ∈ m, 0 < p.2) →
    ∀ (k : String) (v : ℕ), ((k, v) ∈ m ↔ (lookupD m k = v ∧ v ≠ 0)) := by
  induction m with
  | nil =>
    intro _ _ k v
    simp only [List.not_mem_nil, lookupD, false_iff, not_and]
    intro h0
    omega
  | cons a rest ih =>
    intro hnd hpos k v
    obtain ⟨ka, va⟩ := a
    rw [List.map_cons, List.nodup_cons] at hnd
    by_cases hk : ka = k
    · subst hk
      rw [lookupD, if_pos rfl]
      constructor
      · intro hm
        rcases List.mem_cons.mp hm with he | hm'
        · rw [Prod.mk.injEq] at he
          refine ⟨he.2.symm, ?_⟩
          have := hpos _ (List.mem_cons_self (ka, va) rest)
          omega
        · exfalso
          exact hnd.1 (List.mem_map.mpr ⟨(ka, v), hm', rfl⟩)
      · rintro ⟨hv, _⟩
        subst hv
        exact List.mem_cons_self _ _
    · rw [lookupD, if_neg hk]
      rw [List.mem_cons]
      have hne : ¬ ((k, v) = (ka, va)) := by
        rw [Prod.mk.injEq]
        rintro ⟨h1, -⟩
        exact hk h1.symm
      rw [or_iff_right hne]
      exact ih hnd.2 (fun q hq => hpos q (List.mem_cons_of_mem _ hq)) k v

lemma inner_foldl_bump (results : List AggResult) :
    ∀ fc : List (String × ℕ),
      results.foldl (fun fc result =>
        if result.status = "FAIL" ∨ result.status = "ERROR" then bump fc result.name
        else fc) fc =
      ((results.filter (fun c => c.status == "FAIL" || c.status == "ERROR")).map
        (fun c => c.name)).foldl bump fc := by
  induction results with
  | nil => intro fc; rfl
  | cons x xs ih =>
    intro fc
    rw [List.foldl_cons, List.filter_cons]
    by_cases hx : x.status = "FAIL" ∨ x.status = "ERROR"
    · have hb : (x.status == "FAIL" || x.status == "ERROR") = true := by
        rcases hx with h | h <;> simp [h]
      rw [if_pos hx, hb]
      simp only [if_pos rfl, List.map_cons, List.foldl_cons]
      exact ih (bump fc x.name)
    · have hb : (x.status == "FAIL" || x.status == "ERROR") = false := by
        push_neg at hx
        simp [hx.1, hx.2]
      rw [if_neg hx, hb]
      simp only [Bool.false_eq_true, if_false]
      exact ih fc

lemma failure_counts_eq_foldl (rs : List AggReport) :
    failure_counts rs = (failNames rs).foldl bump [] := by
  suffices h : ∀ (rs : List AggReport) (fc : List (String × ℕ)),
      rs.foldl (fun fc report =>
        report.results.foldl (fun fc result =>
          if result.status = "FAIL" ∨ result.status = "ERROR" then bump fc result.name
          else fc) fc) fc = (failNames rs).foldl bump fc by
    exact h rs []
  intro rs
  induction rs with
  | nil => intro fc; rfl
  | cons r rest ih =>
    intro fc
    have hsplit : failNames (r :: rest) =
        ((r.results.filter (fun c => c.status == "FAIL" || c.status == "ERROR")).map
          (fun c => c.name)) ++ failNames rest := by
      simp [failNames, List.filter_append, List.map_append]
    rw [List.foldl_cons, inner_foldl_bump, ih, hsplit, List.foldl_append]

lemma count_eq_failCount (rs : List AggReport) (q : String) :
    (failNames rs).count q = failCount rs q := by
  rw [failNames, failCount, List.count_eq_countP, List.countP_map, List.countP_filter,
    ← List.countP_eq_length_filter]
  congr 1
  funext c
  simp only [Function.comp]
  rw [Bool.and_comm]

/-- Claim C9: the presented failure table contains exactly the pairs
(name, k) with k the positive number of FAIL/ERROR check results named
`name` across all reports; it is sorted descending by count; entries of
any fixed count appear exactly as in the scan-order table, whose name
order is first-encounter order over the qualifying results. -/
theorem C9_failure_table :
    ∀ rs : List AggReport,
      (∀ (name : String) (cnt : ℕ),
        ((name, cnt) ∈ common_failures rs ↔ (cnt = failCount rs name ∧ cnt ≠ 0))) ∧
      List.Pairwise (fun a b : String × ℕ => b.2 ≤ a.2) (common_failures rs) ∧
      (∀ n : ℕ, (common_failures rs).filter (fun p => p.2 == n) =
        (failure_counts rs).filter (fun p => p.2 == n)) ∧
      (failure_counts rs).map Prod.fst = firstEncounteredNames (failNames rs) := by
  intro rs
  have hperm : List.Perm (common_failures rs) (failure_counts rs) :=
    List.perm_insertionSort _ _
  have hkeys : (failure_counts rs).map Prod.fst = firstEncounteredNames (failNames rs) := by
    rw [failure_counts_eq_foldl, keys_foldl_bump]
    rfl
  have hnodup : ((failure_counts rs).map Prod.fst).Nodup := by
    rw [hkeys]
    exact firstEnc_foldl_nodup (failNames rs) [] List.nodup_nil
  have hpos : ∀ p ∈ failure_counts rs, 0 < p.2 := by
    rw [failure_counts_eq_foldl]
    exact values_pos_foldl_bump (failNames rs) [] (by simp)
  refine ⟨?_, ?_, ?_, hkeys⟩
  · intro name cnt
    rw [hperm.mem_iff, mem_iff_lookupD (failure_counts rs) hnodup hpos,
      failure_counts_eq_foldl, lookupD_foldl_bump]
    simp only [lookupD, Nat.zero_add, count_eq_failCount]
    constructor <;> rintro ⟨h1, h2⟩ <;> exact ⟨h1.symm, h2⟩
  · exact List.sorted_insertionSort (fun a b : String × ℕ => b.2 ≤ a.2)
      (failure_counts rs)
  · intro n
    have hpw : ((failure_counts rs).filter (fun p => p.2 == n)).Pairwise
        (fun a b : String × ℕ => b.2 ≤ a.2) := by
      apply List.pairwise_of_forall_mem_list
      intro a ha b hb
      have ha' : a.2 = n := by simpa using (List.mem_filter.mp ha).2
      have hb' : b.2 = n := by simpa using (List.mem_filter.mp hb).2
      rw [ha', hb']
    have hsub : ((failure_counts rs).filter (fun p => p.2 == n)).Sublist
        (common_failures rs) :=
      List.sublist_insertionSort hpw (List.filter_sublist _)
    have heq : ((failure_counts rs).filter (fun p => p.2 == n)).filter
        (fun p => p.2 == n) = (failure_counts rs).filter (fun p => p.2 == n) :=
      List.filter_eq_self.mpr (fun a ha => (List.mem_filter.mp ha).2)
    have hsub2 : ((failure_counts rs).filter (fun p => p.2 == n)).Sublist
        ((common_failures rs).filter (fun p => p.2 == n)) := by
      have h := hsub.filter (fun p => p.2 == n)
      rwa [heq] at h
    have hlen : ((common_failures rs).filter (fun p => p.2 == n)).length =
        ((failure_counts rs).filter (fun p => p.2 == n)).length :=
      (hperm.filter _).length_eq
    exact (hsub2.eq_of_length hlen.symm).symm
